import Mathlib

/-!
Verification development for the PDF-chat backend.

The definitions below are a shallow embedding of the JavaScript sources:
`src/services/embeddingService.js` (ChunkBuilder and the embedding pipeline),
`src/services/chatService.js` (query classification, chat routing and the
model-fallback loops) and the Qdrant gateway (`vectorDBService`).

Conventions of the embedding:
- JavaScript strings are Lean `String`s; `split(/\s+/)`, `trim()` and
  `toLowerCase()` are re-implemented below over `List Char` with the ASCII
  whitespace class (the sources only ever split ordinary text).
- Remote calls (embedding endpoint, Qdrant, chat models) are parameters of
  the embedded functions: an argument describes the outcome the remote
  collaborator would produce, and the function body mirrors the JS control
  flow (try/catch, Promise.race timeout, fallback loops) around it.
- Numeric vector entries are `ℚ` (the code only ever writes the literal
  0.1 into them; no floating-point arithmetic is performed).
- Wall-clock artifacts (log lines, `new Date().toISOString()`) are omitted.
-/

/-- ASCII whitespace, the subset of the JS `\s` class exercised by the code. -/
def isJsWs (c : Char) : Bool :=
  c = ' ' || c = '\t' || c = '\n' || c = '\r' || c = '\x0b' || c = '\x0c'

/-- One pass of JavaScript `str.split(/\s+/)`.  The accumulator is `some cur`
while inside a token (current token chars reversed) and `none` while skipping
a whitespace run; maximal whitespace runs separate tokens, and leading or
trailing runs contribute empty tokens, exactly as in JS. -/
def splitAux : Option (List Char) → List Char → List String
  | some cur, [] => [String.mk cur.reverse]
  | none, [] => [""]
  | some cur, c :: cs =>
      if isJsWs c then String.mk cur.reverse :: splitAux none cs
      else splitAux (some (c :: cur)) cs
  | none, c :: cs =>
      if isJsWs c then splitAux none cs
      else splitAux (some [c]) cs

/-- JavaScript `str.split(/\s+/)`. -/
def jsSplitWs (s : String) : List String :=
  splitAux (some []) s.data

/-- JavaScript `str.trim()`. -/
def jsTrim (s : String) : String :=
  String.mk (((s.data.dropWhile isJsWs).reverse.dropWhile isJsWs).reverse)

/-- JavaScript `str.toLowerCase()` (ASCII). -/
def jsToLower (s : String) : String :=
  String.mk (s.data.map Char.toLower)

/-- JavaScript `arr.join(" ")`. -/
def joinSpace (ws : List String) : String :=
  String.intercalate " " ws

/-- `key.charAt(0).toUpperCase() + key.slice(1)` from `createChunks`. -/
def capitalizeFirst (s : String) : String :=
  match s.data with
  | [] => ""
  | c :: rest => String.mk (c.toUpper :: rest)

/-- The string consisting of one apostrophe character (U+0027). -/
def apos : String := String.mk [Char.ofNat 39]

/-! ## Data model (structured document, chunks) -/

structure PageData where
  pageNumber : Nat
  text : String
deriving DecidableEq

structure SectionData where
  title : String
  content : List String
deriving DecidableEq

/-- The structured document handed to `createChunks`.  `suggestions` and
`explanations` model the optional JS fields (absent = empty). -/
structure StructuredData where
  documentType : String
  summary : String
  pages : List PageData
  sections : List SectionData
  suggestions : List String
  explanations : List (String × String)
deriving DecidableEq

/-- Chunk metadata: each JS metadata object carries only some of these keys,
hence the `Option` fields.  `sectionName` is the JS `section` key. -/
structure ChunkMeta where
  sectionName : String
  documentType : Option String := none
  totalSections : Option Nat := none
  totalPages : Option Nat := none
  pageNumber : Option Nat := none
  pageIndex : Option Nat := none
  sectionTitle : Option String := none
  sectionIndex : Option Nat := none
  chunkType : Option String := none
  chunkPart : Option Nat := none
  wordCount : Option Nat := none
  startWordIndex : Option Nat := none
  explanationType : Option String := none
deriving DecidableEq

structure Chunk where
  content : String
  metadata : ChunkMeta
deriving DecidableEq

/-! ## ChunkBuilder (`embeddingService.js`) -/

def maxChunkSize : Nat := 512
def overlapSize : Nat := 50

/-- `this.maxChunkSize - this.overlapSize`, the loop step of the split
algorithm. -/
def stepSize : Nat := maxChunkSize - overlapSize

/-- The overlapping-window loop shared by `chunkPage` and `chunkSection`:
`for (let i = 0; i < words.length; i += 462) take words.slice(i, i + 512)`.
Each emitted pair is `(i, words.slice(i, i + 512))`.  The `fuel` argument only
bounds the iteration count so the recursion is structural; `words.length`
iterations always suffice since the index advances by 462 ≥ 1 each step. -/
def chunkSpansF : Nat → List String → Nat → List (Nat × List String)
  | 0, _, _ => []
  | fuel + 1, words, i =>
      if i < words.length then
        (i, (words.drop i).take maxChunkSize) :: chunkSpansF fuel words (i + stepSize)
      else []

def chunkSpans (words : List String) (i : Nat) : List (Nat × List String) :=
  chunkSpansF words.length words i

/-- `chunkPage` from `embeddingService.js`. -/
def chunkPage (page : PageData) (pageIndex : Nat) : List Chunk :=
  let content := page.text
  let words := jsSplitWs content
  if words.length ≤ maxChunkSize then
    [{ content := "Page " ++ toString page.pageNumber ++ ": " ++ content,
       metadata := { sectionName := "page_content",
                     pageNumber := some page.pageNumber,
                     pageIndex := some pageIndex,
                     wordCount := some words.length,
                     chunkType := some "page" } }]
  else
    (chunkSpans words 0).map fun iw =>
      { content := "Page " ++ toString page.pageNumber ++ " (Part "
                   ++ toString (iw.1 / stepSize + 1) ++ "): " ++ joinSpace iw.2,
        metadata := { sectionName := "page_content",
                      pageNumber := some page.pageNumber,
                      pageIndex := some pageIndex,
                      chunkType := some "page",
                      chunkPart := some (iw.1 / stepSize + 1),
                      wordCount := some iw.2.length,
                      startWordIndex := some iw.1 } }

/-- `chunkSection` from `embeddingService.js`. -/
def chunkSection (sec : SectionData) (sectionIndex : Nat) : List Chunk :=
  let content := joinSpace sec.content
  let words := jsSplitWs content
  if words.length ≤ maxChunkSize then
    [{ content := sec.title ++ ": " ++ content,
       metadata := { sectionName := "section_content",
                     sectionTitle := some sec.title,
                     sectionIndex := some sectionIndex,
                     wordCount := some words.length,
                     chunkType := some "section" } }]
  else
    (chunkSpans words 0).map fun iw =>
      { content := sec.title ++ " (Part " ++ toString (iw.1 / stepSize + 1)
                   ++ "): " ++ joinSpace iw.2,
        metadata := { sectionName := "section_content",
                      sectionTitle := some sec.title,
                      sectionIndex := some sectionIndex,
                      chunkType := some "section",
                      chunkPart := some (iw.1 / stepSize + 1),
                      wordCount := some iw.2.length,
                      startWordIndex := some iw.1 } }

/-- The document-info chunk pushed first by `createChunks`. -/
def documentInfoChunk (d : StructuredData) : Chunk :=
  { content := "Document Type: " ++ d.documentType ++ ". " ++ d.summary,
    metadata := { sectionName := "document_info",
                  documentType := some d.documentType,
                  totalSections := some d.sections.length,
                  totalPages := some d.pages.length } }

/-- `(index, element)` pairs in order, mirroring `forEach((x, i) => ...)`. -/
def enumFrom (i : Nat) : List α → List (Nat × α)
  | [] => []
  | x :: xs => (i, x) :: enumFrom (i + 1) xs

/-- The page loop of `createChunks`: pages with non-empty trimmed text
contribute their `chunkPage` chunks, in page order. -/
def pageChunksBlock (d : StructuredData) : List Chunk :=
  (enumFrom 0 d.pages).flatMap
    fun ip => if jsTrim ip.2.text ≠ "" then chunkPage ip.2 ip.1 else []

/-- The section loop of `createChunks`. -/
def sectionChunksBlock (d : StructuredData) : List Chunk :=
  (enumFrom 0 d.sections).flatMap fun is => chunkSection is.2 is.1

/-- The optional suggestions chunk of `createChunks`. -/
def suggestionsBlock (d : StructuredData) : List Chunk :=
  if 0 < d.suggestions.length then
    [{ content := "Suggestions: " ++ String.intercalate ". " d.suggestions,
       metadata := { sectionName := "suggestions",
                     documentType := some d.documentType } }]
  else []

/-- The explanation chunks of `createChunks`, one per `Object.entries` pair. -/
def explanationsBlock (d : StructuredData) : List Chunk :=
  d.explanations.map fun kv =>
    { content := capitalizeFirst kv.1 ++ ": " ++ kv.2,
      metadata := { sectionName := "explanations",
                    explanationType := some kv.1,
                    documentType := some d.documentType } }

/-- `createChunks` from `embeddingService.js`: document-info chunk, page
chunks for pages with non-empty trimmed text, section chunks, the optional
suggestions chunk, and one chunk per explanation entry, in that order. -/
def createChunks (d : StructuredData) : List Chunk :=
  documentInfoChunk d
  :: (pageChunksBlock d ++ sectionChunksBlock d ++ suggestionsBlock d
      ++ explanationsBlock d)

/-- Ceiling division, used to state the chunk-count formulas. -/
def ceilDiv (a b : Nat) : Nat := (a + b - 1) / b

/-! ## EmbeddingPipeline (`generateEmbeddings` / `getBatchEmbeddings`) -/

/-- Embedding vectors; entries are exact rationals (the code only ever stores
numbers received from the API or the literal 0.1). -/
def Vec : Type := List ℚ

instance : DecidableEq Vec := inferInstanceAs (DecidableEq (List ℚ))

/-- `new Array(384).fill(0.1)`, the fallback embedding. -/
def fallbackVec : Vec := List.replicate 384 (1/10 : ℚ)

/-- `const batchSize = 5`. -/
def batchSize : Nat := 5

/-- The batch loop of `generateEmbeddings`.  `oracle b` is the outcome of the
remote embedding call for batch number `b` (`none` = the call failed or timed
out, in which case both `getBatchEmbeddings`'s internal catch and the loop's
catch substitute one fallback vector per chunk of the batch; `some vs` = the
API responded with the list `vs`, which the code appends as-is).  `fuel` only
bounds the iteration count (the index advances by 5 each step), making the
recursion structural. -/
def generateEmbeddingsF (oracle : Nat → Option (List Vec)) :
    Nat → List Chunk → Nat → List Vec
  | 0, _, _ => []
  | fuel + 1, chunks, i =>
      if i < chunks.length then
        (match oracle (i / batchSize) with
         | some vs => vs
         | none => ((chunks.drop i).take batchSize).map fun _ => fallbackVec)
        ++ generateEmbeddingsF oracle fuel chunks (i + batchSize)
      else []

/-- `generateEmbeddings` from `embeddingService.js`. -/
def generateEmbeddings (chunks : List Chunk) (oracle : Nat → Option (List Vec)) :
    List Vec :=
  generateEmbeddingsF oracle chunks.length chunks 0

/-! ## VectorIndexGateway (`vectorDBService.js`) -/

/-- The payload stored with each Qdrant point (see `storeEmbeddings`). -/
structure PointPayload where
  content : String
  fileId : Option String
  documentType : Option String
  sectionName : Option String
  sectionTitle : Option String
  chunkIndex : Option Nat
  wordCount : Option Nat
  pageNumber : Option Nat
  pageIndex : Option Nat
  chunkType : Option String
  chunkPart : Option Nat
deriving DecidableEq

/-- A point returned by `client.scroll` (no similarity score). -/
structure ScrollPoint where
  id : String
  payload : PointPayload
deriving DecidableEq

/-- A point returned by `client.search` (with a similarity score). -/
structure ScoredPoint where
  id : String
  score : ℚ
  payload : PointPayload
deriving DecidableEq

/-- The result objects the gateway returns to its callers. -/
structure SearchResult where
  id : String
  score : ℚ
  content : String
  metadata : PointPayload
deriving DecidableEq

/-- The result mapping in `searchSimilar` (drops the page fields). -/
def scoredToResult (r : ScoredPoint) : SearchResult :=
  { id := r.id, score := r.score, content := r.payload.content,
    metadata := { content := r.payload.content, fileId := r.payload.fileId,
                  documentType := r.payload.documentType,
                  sectionName := r.payload.sectionName,
                  sectionTitle := r.payload.sectionTitle,
                  chunkIndex := r.payload.chunkIndex,
                  wordCount := r.payload.wordCount,
                  pageNumber := none, pageIndex := none,
                  chunkType := none, chunkPart := none } }

/-- The result mapping in `searchByFileId` / `searchByFileIdAndPage`: a fixed
score of 1.0 (membership, not ranking) and the full payload. -/
def scrollToResult (p : ScrollPoint) : SearchResult :=
  { id := p.id, score := 1, content := p.payload.content,
    metadata := { content := p.payload.content, fileId := p.payload.fileId,
                  documentType := p.payload.documentType,
                  sectionName := p.payload.sectionName,
                  sectionTitle := p.payload.sectionTitle,
                  chunkIndex := p.payload.chunkIndex,
                  wordCount := p.payload.wordCount,
                  pageNumber := p.payload.pageNumber,
                  pageIndex := p.payload.pageIndex,
                  chunkType := p.payload.chunkType,
                  chunkPart := p.payload.chunkPart } }

/-- A Qdrant filter (`must` clauses of key/value matches). -/
def QFilter : Type := List (String × String)

instance : DecidableEq QFilter := inferInstanceAs (DecidableEq (List (String × String)))

/-- `searchSimilar`: the zero-vector guard returns an empty list before the
store is consulted; otherwise the outcome of `client.search` (the
`clientSearch` argument) is mapped on success and rethrown on failure. -/
def searchSimilar (queryEmbedding : List ℚ) (filter : Option QFilter)
    (clientSearch : Except String (List ScoredPoint)) :
    Except String (List SearchResult) :=
  if queryEmbedding.all (· = 0) && filter.isNone then
    Except.ok []
  else
    match clientSearch with
    | Except.ok rs => Except.ok (rs.map scoredToResult)
    | Except.error e => Except.error e

/-- `searchByFileIdAndPage`: scroll with a fileId+pageNumber filter; the catch
block converts any index-layer failure into an empty result. -/
def searchByFileIdAndPage (_fileId : String) (_pageNumber : Nat) (_limit : Nat)
    (clientScroll : Except String (List ScrollPoint)) : List SearchResult :=
  match clientScroll with
  | Except.ok pts => pts.map scrollToResult
  | Except.error _ => []

/-- `searchByFileId`: scroll with a fileId filter; the catch block converts
any index-layer failure into an empty result. -/
def searchByFileId (_fileId : String) (_limit : Nat)
    (clientScroll : Except String (List ScrollPoint)) : List SearchResult :=
  match clientScroll with
  | Except.ok pts => pts.map scrollToResult
  | Except.error _ => []

/-- `deleteByFileId`: the catch block rethrows the index-layer failure. -/
def deleteByFileId (_fileId : String) (clientDelete : Except String Unit) :
    Except String Bool :=
  match clientDelete with
  | Except.ok _ => Except.ok true
  | Except.error e => Except.error e

/-! ## QueryRouter (`detectPageSpecificQuery` in `chatService.js`)

The four page-detection regexes are embedded as matchers over `List Char`.
For these particular patterns, backtracking never changes the outcome
(`\s+`, `\d+` and the ordinal alternatives consume disjoint character
classes), so each matcher deterministically consumes greedy runs; a match is
searched for at every start position left to right, which is exactly the JS
leftmost-match semantics of `String.prototype.match`. -/

/-- Match a literal character sequence, returning the rest of the input. -/
def litChars : List Char → List Char → Option (List Char)
  | [], s => some s
  | _ :: _, [] => none
  | p :: ps, c :: cs => if c = p then litChars ps cs else none

/-- `\s+` (greedy, at least one whitespace character). -/
def wsRun : List Char → Option (List Char)
  | [] => none
  | c :: cs => if isJsWs c then some (cs.dropWhile isJsWs) else none

/-- Digit-string value, as produced by `parseInt` on a `\d+` capture. -/
def digitsToNat (ds : List Char) : Nat :=
  ds.foldl (fun a c => 10 * a + (c.toNat - 48)) 0

/-- `(\d+)` (greedy, at least one digit); returns the captured value and the
rest of the input. -/
def digitRun (s : List Char) : Option (Nat × List Char) :=
  match s.takeWhile Char.isDigit with
  | [] => none
  | ds => some (digitsToNat ds, s.dropWhile Char.isDigit)

/-- Try literal alternatives in order (used for `st|nd|rd|th`; the
alternatives start with distinct characters, so at most one can match). -/
def litAlts : List (List Char) → List Char → Option (List Char)
  | [], _ => none
  | p :: ps, s =>
      match litChars p s with
      | some r => some r
      | none => litAlts ps s

/-- `\s+page`. -/
def wsThenPage (s : List Char) : Option (List Char) :=
  (wsRun s).bind (litChars ['p', 'a', 'g', 'e'])

/-- `(?:st|nd|rd|th)?\s+page`: with the ordinal suffix if that succeeds,
otherwise without it (the regex backtracks to the empty alternative). -/
def ordThenPage (s : List Char) : Option (List Char) :=
  match (litAlts [['s','t'], ['n','d'], ['r','d'], ['t','h']] s).bind wsThenPage with
  | some r => some r
  | none => wsThenPage s

/-- `/page\s+(\d+)/` anchored at the current position. -/
def patPageNum (s : List Char) : Option Nat :=
  ((litChars ['p','a','g','e'] s).bind wsRun).bind fun r =>
    (digitRun r).map Prod.fst

/-- `/the\s+(\d+)(?:st|nd|rd|th)?\s+page/` anchored at the current position. -/
def patTheNthPage (s : List Char) : Option Nat :=
  ((litChars ['t','h','e'] s).bind wsRun).bind fun r =>
    (digitRun r).bind fun nr => (ordThenPage nr.2).map fun _ => nr.1

/-- `/page\s+number\s+(\d+)/` anchored at the current position. -/
def patPageNumberNum (s : List Char) : Option Nat :=
  ((((litChars ['p','a','g','e'] s).bind wsRun).bind
      (litChars ['n','u','m','b','e','r'])).bind wsRun).bind fun r =>
    (digitRun r).map Prod.fst

/-- `/(\d+)(?:st|nd|rd|th)?\s+page/` anchored at the current position. -/
def patNthPage (s : List Char) : Option Nat :=
  (digitRun s).bind fun nr => (ordThenPage nr.2).map fun _ => nr.1

/-- Leftmost match: try the anchored matcher at each position left to right
(JS `string.match(regex)` without the global flag). -/
def scanMatch (m : List Char → Option Nat) : List Char → Option Nat
  | [] => m []
  | c :: cs =>
      match m (c :: cs) with
      | some n => some n
      | none => scanMatch m cs

/-- The `pagePatterns` array, in source order. -/
def pagePatterns : List (List Char → Option Nat) :=
  [scanMatch patPageNum, scanMatch patTheNthPage,
   scanMatch patPageNumberNum, scanMatch patNthPage]

/-- The pattern loop: on a match, `parseInt` the capture and return it only
when it is positive; otherwise fall through to the next pattern. -/
def tryPatterns : List (List Char → Option Nat) → List Char → Option Nat
  | [], _ => none
  | p :: ps, s =>
      match p s with
      | some n => if 0 < n then some n else tryPatterns ps s
      | none => tryPatterns ps s

structure PageQueryResult where
  isPageSpecific : Bool
  pageNumber : Option Nat
deriving DecidableEq

/-- `detectPageSpecificQuery` from `chatService.js`. -/
def detectPageSpecificQuery (query : String) : PageQueryResult :=
  match tryPatterns pagePatterns (jsToLower query).data with
  | some n => { isPageSpecific := true, pageNumber := some n }
  | none => { isPageSpecific := false, pageNumber := none }

/-! ## Chat routing and model fallback (`chatService.js`) -/

/-- `buildContext` from `chatService.js`.  A `none` target page prints as
`null`, as JS template interpolation would. -/
def buildContext (chunks : List SearchResult) (fileId : Option String)
    (isPageSpecific : Bool) (targetPage : Option Nat) : String :=
  let pageStr := (targetPage.map toString).getD "null"
  if chunks.length = 0 then
    if isPageSpecific then
      "No content found on page " ++ pageStr ++
        ". The page might be empty or the document might not have that many pages."
    else "No relevant information found in the uploaded documents."
  else
    let base :=
      if isPageSpecific then
        "Based on the following information from page " ++ pageStr ++ ":\n\n"
      else "Based on the following information from the document:\n\n"
    let body := String.join ((enumFrom 0 chunks).map fun ic =>
      toString (ic.1 + 1) ++ ". " ++ ic.2.content ++ "\n\n")
    let tailStr :=
      match fileId with
      | some fid =>
          if isPageSpecific then
            "\nThis information is from page " ++ pageStr ++
              " of a specific document (ID: " ++ fid ++ ")."
          else "\nThis information is from a specific document (ID: " ++ fid ++ ")."
      | none => ""
    base ++ body ++ tailStr

/-- The outcome of racing one model request against its timeout timer:
the timer fired, the transport failed, or a response arrived whose first
choice's message content is `firstChoice` (`none` when the response has no
`choices[0]`, which the code treats as malformed). -/
inductive AttemptOutcome where
  | timeout (msg : String)
  | transportError (msg : String)
  | response (firstChoice : Option String)
deriving DecidableEq

/-- One iteration body of the fallback loops: a well-formed response returns
its content; a timeout or transport error carries its message; a malformed
response raises `Invalid response`. -/
def attemptResult : AttemptOutcome → Except String String
  | AttemptOutcome.timeout msg => Except.error msg
  | AttemptOutcome.transportError msg => Except.error msg
  | AttemptOutcome.response none => Except.error "Invalid response"
  | AttemptOutcome.response (some c) => Except.ok c

/-- The model-fallback loop of `generateResponse`, over the fixed candidate
list (primary, fallback 1, fallback 2).  Returns the loop result together
with the number of candidates actually invoked; the failure of the last
candidate is rethrown. -/
def generateResponse3 (o1 o2 o3 : AttemptOutcome) : Except String String × Nat :=
  match attemptResult o1 with
  | Except.ok r => (Except.ok r, 1)
  | Except.error _ =>
      match attemptResult o2 with
      | Except.ok r => (Except.ok r, 2)
      | Except.error _ =>
          match attemptResult o3 with
          | Except.ok r => (Except.ok r, 3)
          | Except.error e => (Except.error e, 3)

/-- `^\d+\.\s*` removal applied to each follow-up question line. -/
def stripEnum (s : String) : String :=
  match s.data.takeWhile Char.isDigit with
  | [] => s
  | ds =>
      match s.data.drop ds.length with
      | '.' :: rest => String.mk (rest.dropWhile isJsWs)
      | _ => s

/-- The parsing of a successful follow-up-questions response: trim, split on
newlines, keep non-blank lines, strip leading enumeration. -/
def parseQuestions (content : String) : List String :=
  (((jsTrim content).splitOn "\n").filter fun q => jsTrim q ≠ "").map
    fun q => jsTrim (stripEnum q)

/-- `generateFollowUpQuestions` from `chatService.js`: empty retrieval yields
an empty list; the same three-candidate fallback loop is run, but the failure
of the last candidate returns an empty list instead of propagating. -/
def generateFollowUpQuestions (chunks : List SearchResult)
    (o1 o2 o3 : AttemptOutcome) : List String :=
  if chunks.length = 0 then []
  else
    match attemptResult o1 with
    | Except.ok c => parseQuestions c
    | Except.error _ =>
        match attemptResult o2 with
        | Except.ok c => parseQuestions c
        | Except.error _ =>
            match attemptResult o3 with
            | Except.ok c => parseQuestions c
            | Except.error _ => []

/-- The `context` object of a chat response. -/
structure ChatContext where
  chunksUsed : Nat
  topChunk : String
  confidence : ℚ
  isPageSpecific : Bool
  targetPage : Option Nat
deriving DecidableEq

/-- A chat response (the `metadata` timestamp field is wall-clock and is
omitted). -/
structure ChatResult where
  response : String
  context : ChatContext
deriving DecidableEq

/-- The `relevantChunks[0]?.content?.substring(0, 200) + "..."` preview
(`undefined + "..."` when there is no chunk, as in JS). -/
def topChunkPreview (chunks : List SearchResult) : String :=
  match chunks.head? with
  | some c => String.mk (c.content.data.take 200) ++ "..."
  | none => "undefined..."

/-- The success path of `chatWithPDF` once chunks are retrieved: build the
context, invoke the model-fallback sequence (`gen`), and wrap the answer; a
failure is rethrown as `Chat failed: ...`. -/
def chatRespond (chunks : List SearchResult) (fileId : Option String)
    (isPageSpecific : Bool) (targetPage : Option Nat)
    (gen : String → Except String String) : Except String ChatResult :=
  match gen (buildContext chunks fileId isPageSpecific targetPage) with
  | Except.ok r =>
      Except.ok
        { response := r,
          context := { chunksUsed := chunks.length,
                       topChunk := topChunkPreview chunks,
                       confidence := ((chunks.head?).map (·.score)).getD 0,
                       isPageSpecific := isPageSpecific,
                       targetPage := targetPage } }
  | Except.error e => Except.error ("Chat failed: " ++ e)

/-- The terminal "no content on page N" response of `chatWithPDF`. -/
def noContentResult (targetPage : Nat) : ChatResult :=
  { response := "I couldn" ++ apos ++ "t find any content on page "
                ++ toString targetPage ++
                ". The document might not have that many pages, or the page might be empty.",
    context := { chunksUsed := 0, topChunk := "No content found",
                 confidence := 0, isPageSpecific := true,
                 targetPage := some targetPage } }

/-- `chatWithPDF` from `chatService.js`.  The three retrieval strategies are
passed as the outcomes the vector gateway would produce: `pageSearch fid n`
is `searchByFileIdAndPage(fid, n, 10)` (which never throws), `fileSearch fid`
is `searchByFileId(fid, 10)` (which never throws), and `simSearch` is the
outcome of `searchSimilar` on the query embedding (which can throw).  `gen`
is the model-fallback sequence on the assembled context. -/
def chatWithPDF (query : String) (fileId : Option String)
    (pageSearch : String → Nat → List SearchResult)
    (fileSearch : String → List SearchResult)
    (simSearch : Except String (List SearchResult))
    (gen : String → Except String String) : Except String ChatResult :=
  let pq := detectPageSpecificQuery query
  match fileId with
  | some fid =>
      if pq.isPageSpecific then
        let targetPage := pq.pageNumber.getD 0
        let relevantChunks := pageSearch fid targetPage
        if relevantChunks.length = 0 then Except.ok (noContentResult targetPage)
        else chatRespond relevantChunks (some fid) true (some targetPage) gen
      else chatRespond (fileSearch fid) (some fid) false none gen
  | none =>
      match simSearch with
      | Except.ok chunks => chatRespond chunks none false none gen
      | Except.error e => Except.error ("Chat failed: " ++ e)

/-! ## Lemmas about the split loop -/

theorem stepSize_eq : stepSize = 462 := rfl

theorem maxChunkSize_eq : maxChunkSize = 512 := rfl

theorem chunkSpansF_length (fuel : Nat) :
    ∀ (words : List String) (i : Nat), words.length ≤ i + stepSize * fuel →
      (chunkSpansF fuel words i).length = (words.length - i + 461) / 462 := by
  induction fuel with
  | zero =>
      intro words i h
      rw [stepSize_eq] at h
      simp only [chunkSpansF, List.length_nil]
      omega
  | succ fuel ih =>
      intro words i h
      rw [stepSize_eq] at h
      by_cases hlt : i < words.length
      · rw [chunkSpansF, if_pos hlt, List.length_cons,
          ih words (i + stepSize) (by rw [stepSize_eq]; omega)]
        rw [stepSize_eq]
        omega
      · rw [chunkSpansF, if_neg hlt, List.length_nil]
        omega

theorem chunkSpansF_getElem? (fuel : Nat) :
    ∀ (words : List String) (i k : Nat), words.length ≤ i + stepSize * fuel →
      (chunkSpansF fuel words i)[k]? =
        if i + 462 * k < words.length then
          some (i + 462 * k, (words.drop (i + 462 * k)).take 512)
        else none := by
  induction fuel with
  | zero =>
      intro words i k h
      rw [stepSize_eq] at h
      rw [chunkSpansF, if_neg (by omega)]
      simp
  | succ fuel ih =>
      intro words i k h
      rw [stepSize_eq] at h
      by_cases hlt : i < words.length
      · rw [chunkSpansF, if_pos hlt]
        cases k with
        | zero =>
            rw [if_pos (by omega)]
            simp [maxChunkSize_eq]
        | succ k =>
            have step : (462 : Nat) = stepSize := rfl
            rw [List.getElem?_cons_succ,
              ih words (i + stepSize) k (by rw [stepSize_eq]; omega),
              stepSize_eq]
            have harith : i + 462 + 462 * k = i + 462 * (k + 1) := by ring
            rw [harith]
      · rw [chunkSpansF, if_neg hlt, if_neg (by omega)]
        simp

theorem chunkSpans_length (words : List String) :
    (chunkSpans words 0).length = (words.length + 461) / 462 := by
  have h := chunkSpansF_length words.length words 0 (by rw [stepSize_eq]; omega)
  rw [chunkSpans, h]
  omega

theorem chunkSpans_getElem? (words : List String) (k : Nat) :
    (chunkSpans words 0)[k]? =
      if 462 * k < words.length then
        some (462 * k, (words.drop (462 * k)).take 512)
      else none := by
  have h := chunkSpansF_getElem? words.length words 0 k (by rw [stepSize_eq]; omega)
  rw [chunkSpans, h]
  simp

theorem ceilDiv_eq (a : Nat) : ceilDiv a 462 = (a + 461) / 462 := by
  rw [ceilDiv]
  omega

theorem chunkPage_length_of_big (p : PageData) (idx : Nat)
    (h : 512 < (jsSplitWs p.text).length) :
    (chunkPage p idx).length = ceilDiv (jsSplitWs p.text).length 462 := by
  rw [chunkPage]
  simp only [maxChunkSize_eq]
  rw [if_neg (by omega), List.length_map, chunkSpans_length, ceilDiv_eq]

theorem chunkSection_length_of_big (s : SectionData) (idx : Nat)
    (h : 512 < (jsSplitWs (joinSpace s.content)).length) :
    (chunkSection s idx).length = ceilDiv (jsSplitWs (joinSpace s.content)).length 462 := by
  rw [chunkSection]
  simp only [maxChunkSize_eq]
  rw [if_neg (by omega), List.length_map, chunkSpans_length, ceilDiv_eq]

theorem chunkPage_wordCounts_of_big (p : PageData) (idx : Nat)
    (h : 512 < (jsSplitWs p.text).length) :
    (chunkPage p idx).map (fun c => c.metadata.wordCount) =
      (chunkSpans (jsSplitWs p.text) 0).map (fun sp => some sp.2.length) := by
  rw [chunkPage]
  simp only [maxChunkSize_eq]
  rw [if_neg (by omega), List.map_map]
  rfl

theorem chunkSection_wordCounts_of_big (s : SectionData) (idx : Nat)
    (h : 512 < (jsSplitWs (joinSpace s.content)).length) :
    (chunkSection s idx).map (fun c => c.metadata.wordCount) =
      (chunkSpans (jsSplitWs (joinSpace s.content)) 0).map (fun sp => some sp.2.length) := by
  rw [chunkSection]
  simp only [maxChunkSize_eq]
  rw [if_neg (by omega), List.map_map]
  rfl

theorem chunkPage_wordCount_getElem (p : PageData) (idx k : Nat)
    (h : 512 < (jsSplitWs p.text).length) :
    ((chunkPage p idx)[k]?).map (fun c => c.metadata.wordCount) =
      if 462 * k < (jsSplitWs p.text).length then
        some (some (min 512 ((jsSplitWs p.text).length - 462 * k)))
      else none := by
  rw [← List.getElem?_map, chunkPage_wordCounts_of_big p idx h, List.getElem?_map,
    chunkSpans_getElem?]
  by_cases hk : 462 * k < (jsSplitWs p.text).length
  · rw [if_pos hk, if_pos hk]
    simp [List.length_take, List.length_drop, Nat.min_comm]
  · rw [if_neg hk, if_neg hk]
    simp

theorem chunkSection_wordCount_getElem (s : SectionData) (idx k : Nat)
    (h : 512 < (jsSplitWs (joinSpace s.content)).length) :
    ((chunkSection s idx)[k]?).map (fun c => c.metadata.wordCount) =
      if 462 * k < (jsSplitWs (joinSpace s.content)).length then
        some (some (min 512 ((jsSplitWs (joinSpace s.content)).length - 462 * k)))
      else none := by
  rw [← List.getElem?_map, chunkSection_wordCounts_of_big s idx h, List.getElem?_map,
    chunkSpans_getElem?]
  by_cases hk : 462 * k < (jsSplitWs (joinSpace s.content)).length
  · rw [if_pos hk, if_pos hk]
    simp [List.length_take, List.length_drop, Nat.min_comm]
  · rw [if_neg hk, if_neg hk]
    simp

/-! ## A concrete 925-word page

`wtext n` is `n` copies of the word `w` separated by single spaces; splitting
it on whitespace gives exactly `n` words. -/

def wtext : Nat → List Char
  | 0 => []
  | 1 => ['w']
  | n + 2 => 'w' :: ' ' :: wtext (n + 1)

theorem splitAux_wtext (n : Nat) :
    splitAux (some []) (wtext (n + 1)) = List.replicate (n + 1) "w" ∧
      splitAux none (wtext (n + 1)) = List.replicate (n + 1) "w" := by
  induction n with
  | zero => exact ⟨by decide, by decide⟩
  | succ n ih =>
      have h1 : isJsWs 'w' = false := by decide
      have h2 : isJsWs ' ' = true := by decide
      constructor
      · show splitAux (some []) ('w' :: ' ' :: wtext (n + 1)) = _
        rw [splitAux, if_neg (by decide), splitAux, if_pos (by decide)]
        rw [ih.2, List.replicate_succ]
        rfl
      · show splitAux none ('w' :: ' ' :: wtext (n + 1)) = _
        rw [splitAux, if_neg (by decide), splitAux, if_pos (by decide)]
        rw [ih.2, List.replicate_succ]
        rfl

/-- A page whose text is 925 words: the smallest size on which the spec's
chunk-count formula diverges from the code. -/
def p925 : PageData := { pageNumber := 1, text := String.mk (wtext 925) }

theorem words_p925 : jsSplitWs p925.text = List.replicate 925 "w" :=
  (splitAux_wtext 924).1

/-! ## Membership lemmas for chunk metadata -/

theorem mem_chunkSpansF_snd_le (fuel : Nat) :
    ∀ (words : List String) (i : Nat) (iw : Nat × List String),
      iw ∈ chunkSpansF fuel words i → iw.2.length ≤ 512 := by
  induction fuel with
  | zero => intro words i iw h; simp [chunkSpansF] at h
  | succ fuel ih =>
      intro words i iw h
      rw [chunkSpansF] at h
      by_cases hlt : i < words.length
      · rw [if_pos hlt, List.mem_cons] at h
        rcases h with h | h
        · subst h
          simp [maxChunkSize_eq, List.length_take]
        · exact ih words (i + stepSize) iw h
      · rw [if_neg hlt] at h
        simp at h

theorem mem_chunkPage_meta (p : PageData) (idx : Nat) (c : Chunk)
    (h : c ∈ chunkPage p idx) :
    c.metadata.sectionName = "page_content" ∧
    c.metadata.pageIndex = some idx ∧
    c.metadata.sectionIndex = none ∧
    (∀ w, c.metadata.wordCount = some w → w ≤ 512) := by
  rw [chunkPage] at h
  by_cases hb : (jsSplitWs p.text).length ≤ maxChunkSize
  · rw [if_pos hb] at h
    rw [List.mem_singleton] at h
    subst h
    refine ⟨rfl, rfl, rfl, ?_⟩
    intro w hw
    simp at hw
    rw [maxChunkSize_eq] at hb
    omega
  · rw [if_neg hb, List.mem_map] at h
    obtain ⟨iw, hiw, hc⟩ := h
    subst hc
    refine ⟨rfl, rfl, rfl, ?_⟩
    intro w hw
    simp at hw
    have := mem_chunkSpansF_snd_le _ _ _ _ hiw
    omega

theorem mem_chunkSection_meta (s : SectionData) (idx : Nat) (c : Chunk)
    (h : c ∈ chunkSection s idx) :
    c.metadata.sectionName = "section_content" ∧
    c.metadata.sectionIndex = some idx ∧
    c.metadata.pageIndex = none ∧
    (∀ w, c.metadata.wordCount = some w → w ≤ 512) := by
  rw [chunkSection] at h
  by_cases hb : (jsSplitWs (joinSpace s.content)).length ≤ maxChunkSize
  · rw [if_pos hb] at h
    rw [List.mem_singleton] at h
    subst h
    refine ⟨rfl, rfl, rfl, ?_⟩
    intro w hw
    simp at hw
    rw [maxChunkSize_eq] at hb
    omega
  · rw [if_neg hb, List.mem_map] at h
    obtain ⟨iw, hiw, hc⟩ := h
    subst hc
    refine ⟨rfl, rfl, rfl, ?_⟩
    intro w hw
    simp at hw
    have := mem_chunkSpansF_snd_le _ _ _ _ hiw
    omega

/-- Every `wordCount` recorded anywhere in `createChunks` is at most 512. -/
theorem createChunks_wordCount_le (d : StructuredData) (c : Chunk)
    (hc : c ∈ createChunks d) (w : Nat) (hw : c.metadata.wordCount = some w) :
    w ≤ 512 := by
  rw [createChunks, pageChunksBlock, sectionChunksBlock, suggestionsBlock,
    explanationsBlock, List.mem_cons] at hc
  rcases hc with hc | hc
  · subst hc
    simp [documentInfoChunk] at hw
  simp only [List.mem_append] at hc
  rcases hc with ((hc | hc) | hc) | hc
  · rw [List.mem_flatMap] at hc
    obtain ⟨ip, _, hcm⟩ := hc
    by_cases ht : jsTrim ip.2.text ≠ ""
    · rw [if_pos ht] at hcm
      exact (mem_chunkPage_meta ip.2 ip.1 c hcm).2.2.2 w hw
    · rw [if_neg ht] at hcm
      simp at hcm
  · rw [List.mem_flatMap] at hc
    obtain ⟨is, _, hcm⟩ := hc
    exact (mem_chunkSection_meta is.2 is.1 c hcm).2.2.2 w hw
  · by_cases hs : 0 < d.suggestions.length
    · rw [if_pos hs, List.mem_singleton] at hc
      subst hc
      simp at hw
    · rw [if_neg hs] at hc
      simp at hc
  · rw [List.mem_map] at hc
    obtain ⟨kv, _, hcm⟩ := hc
    subst hcm
    simp at hw

/-! ## Claims C1 and C2 -/

/-- C1 (counterexample): on a page of exactly 925 words the split loop emits
3 chunks, while the claimed formula `ceil((N - 50) / 462)` gives 2; moreover
the middle chunk (not the last) has 463 words, not 512. -/
theorem chunk_count_counterexample :
    512 < (jsSplitWs p925.text).length ∧
    (jsSplitWs p925.text).length = 925 ∧
    (chunkPage p925 0).length = 3 ∧
    ceilDiv ((jsSplitWs p925.text).length - 50) 462 = 2 ∧
    (chunkPage p925 0).length ≠ ceilDiv ((jsSplitWs p925.text).length - 50) 462 ∧
    ((chunkPage p925 0)[1]?).map (fun c => c.metadata.wordCount) = some (some 463) := by
  have hw : (jsSplitWs p925.text).length = 925 := by
    rw [words_p925, List.length_replicate]
  have hbig : 512 < (jsSplitWs p925.text).length := by omega
  have hlen : (chunkPage p925 0).length = 3 := by
    rw [chunkPage_length_of_big p925 0 hbig, hw, ceilDiv_eq]
  have hclaim : ceilDiv ((jsSplitWs p925.text).length - 50) 462 = 2 := by
    rw [hw, ceilDiv_eq]
  refine ⟨hbig, hw, hlen, hclaim, by omega, ?_⟩
  rw [chunkPage_wordCount_getElem p925 0 1 hbig, hw, if_pos (by omega)]
  norm_num

/-- C1 (amended): for a page or section whose word count `N` exceeds 512, the
split loop emits exactly `ceil(N / 462)` chunks and the `k`-th chunk holds
`min 512 (N - 462k)` words; the spec formula `ceil((N - 50) / 462)` and the
all-but-last-full property agree with this exactly when `N mod 462` is 0 or
greater than 50 (otherwise one extra sub-overlap-size chunk is emitted). -/
theorem chunk_count_spec (p : PageData) (s : SectionData) (pidx sidx : Nat) :
    (512 < (jsSplitWs p.text).length →
      (chunkPage p pidx).length = ceilDiv (jsSplitWs p.text).length 462 ∧
      ∀ k, ((chunkPage p pidx)[k]?).map (fun c => c.metadata.wordCount) =
        if 462 * k < (jsSplitWs p.text).length then
          some (some (min 512 ((jsSplitWs p.text).length - 462 * k)))
        else none) ∧
    (512 < (jsSplitWs (joinSpace s.content)).length →
      (chunkSection s sidx).length = ceilDiv (jsSplitWs (joinSpace s.content)).length 462 ∧
      ∀ k, ((chunkSection s sidx)[k]?).map (fun c => c.metadata.wordCount) =
        if 462 * k < (jsSplitWs (joinSpace s.content)).length then
          some (some (min 512 ((jsSplitWs (joinSpace s.content)).length - 462 * k)))
        else none) ∧
    (∀ N : Nat, 512 < N → N % 462 = 0 ∨ 50 < N % 462 →
      ceilDiv N 462 = ceilDiv (N - 50) 462) := by
  refine ⟨fun h => ⟨chunkPage_length_of_big p pidx h,
      fun k => chunkPage_wordCount_getElem p pidx k h⟩,
    fun h => ⟨chunkSection_length_of_big s sidx h,
      fun k => chunkSection_wordCount_getElem s sidx k h⟩,
    fun N h1 h2 => ?_⟩
  rw [ceilDiv_eq, ceilDiv_eq]
  omega

/-- C1 (witness): the amended count at the 925-word page. -/
theorem chunk_count_spec_witness :
    512 < (jsSplitWs p925.text).length ∧
    (chunkPage p925 0).length = ceilDiv (jsSplitWs p925.text).length 462 := by
  have hbig : 512 < (jsSplitWs p925.text).length := by
    rw [words_p925, List.length_replicate]
    norm_num
  exact ⟨hbig,
    ((chunk_count_spec p925 { title := "t", content := [] } 0 0).1 hbig).1⟩

/-- C2 (counterexample): on the 925-word page the third chunk starts at word
924 and holds a single word, so its first 50 words are not the previous
chunk's last 50 words — the 50-word-overlap invariant fails for the trailing
chunk. -/
theorem chunk_overlap_counterexample :
    (chunkSpans (jsSplitWs p925.text) 0)[2]? = some (924, List.replicate 1 "w") ∧
    (chunkSpans (jsSplitWs p925.text) 0)[1]? = some (462, List.replicate 463 "w") ∧
    (List.replicate 1 "w").take 50 ≠
      (List.replicate 463 "w").drop ((List.replicate 463 "w").length - 50) ∧
    ((chunkPage p925 0)[2]?).map (fun c => c.metadata.wordCount) = some (some 1) := by
  have hw : jsSplitWs p925.text = List.replicate 925 "w" := words_p925
  have hbig : 512 < (jsSplitWs p925.text).length := by
    rw [hw, List.length_replicate]
    norm_num
  refine ⟨?_, ?_, ?_, ?_⟩
  · rw [hw, chunkSpans_getElem?, List.length_replicate,
      if_pos (by norm_num), List.drop_replicate, List.take_replicate]
    norm_num
  · rw [hw, chunkSpans_getElem?, List.length_replicate,
      if_pos (by norm_num), List.drop_replicate, List.take_replicate]
    norm_num
  · intro h
    have hl := congrArg List.length h
    rw [List.take_replicate, List.drop_replicate, List.length_replicate,
      List.length_replicate, List.length_replicate] at hl
    omega
  · rw [chunkPage_wordCount_getElem p925 0 2 hbig, hw, List.length_replicate,
      if_pos (by norm_num)]
    norm_num

/-- C2 (amended): every recorded chunk word count is at most 512; within an
oversized unit consecutive chunks start exactly 462 words apart, and when the
previous chunk is full (512 words) the next chunk's first 50 words equal the
previous chunk's last 50; when the previous chunk is already short, the next
chunk is instead its 462-word-offset suffix (which can be shorter than the
50-word overlap).  The word counts of the emitted chunks are exactly the
lengths of the split-loop windows. -/
theorem chunk_overlap_spec :
    (∀ (d : StructuredData) (c : Chunk), c ∈ createChunks d →
      ∀ w, c.metadata.wordCount = some w → w ≤ 512) ∧
    (∀ (words : List String) (k : Nat) (sp spNext : Nat × List String),
      (chunkSpans words 0)[k]? = some sp →
      (chunkSpans words 0)[k + 1]? = some spNext →
      spNext.1 = sp.1 + 462 ∧
      (sp.2.length = 512 →
        spNext.2.take 50 = sp.2.drop (sp.2.length - 50)) ∧
      (sp.2.length < 512 → spNext.2 = sp.2.drop 462)) ∧
    (∀ (p : PageData) (idx : Nat), 512 < (jsSplitWs p.text).length →
      (chunkPage p idx).map (fun c => c.metadata.wordCount) =
        (chunkSpans (jsSplitWs p.text) 0).map (fun sp => some sp.2.length)) := by
  refine ⟨createChunks_wordCount_le, ?_, chunkPage_wordCounts_of_big⟩
  intro words k sp spNext hk hk1
  rw [chunkSpans_getElem?] at hk hk1
  by_cases h1 : 462 * k < words.length
  · rw [if_pos h1] at hk
    by_cases h2 : 462 * (k + 1) < words.length
    · rw [if_pos h2] at hk1
      obtain rfl := (Option.some_inj.mp hk).symm
      obtain rfl := (Option.some_inj.mp hk1).symm
      have hlen : ((words.drop (462 * k)).take 512).length =
          min 512 (words.length - 462 * k) := by
        simp [List.length_take, List.length_drop]
      refine ⟨by ring_nf, ?_, ?_⟩
      · intro hfull
        rw [hfull, List.take_take, List.drop_take, List.drop_drop]
        have harith1 : (50 : Nat) ⊓ 512 = 50 := by norm_num
        have harith2 : (512 : Nat) - (512 - 50) = 50 := by norm_num
        have harith3 : 462 * k + (512 - 50) = 462 * (k + 1) := by ring_nf
        rw [harith1, harith2, harith3]
      · intro hshort
        rw [hlen] at hshort
        have hsmall : words.length - 462 * k < 512 := by omega
        have hd1 : (words.drop (462 * k)).length ≤ 512 := by
          rw [List.length_drop]; omega
        have hd2 : (words.drop (462 * (k + 1))).length ≤ 512 := by
          rw [List.length_drop]; omega
        rw [List.take_of_length_le hd1, List.take_of_length_le hd2, List.drop_drop]
        have harith : 462 * k + 462 = 462 * (k + 1) := by ring
        rw [harith]
    · rw [if_neg h2] at hk1
      exact absurd hk1 (by simp)
  · rw [if_neg h1] at hk
    exact absurd hk (by simp)

set_option maxRecDepth 4000 in
/-- C2 (witness): overlap at the boundary of two full 512-word chunks of a
1024-word unit. -/
theorem chunk_overlap_spec_witness :
    (List.replicate 512 "w").take 50 =
      (List.replicate 512 "w").drop ((List.replicate 512 "w").length - 50) := by
  have h0 : (chunkSpans (List.replicate 1024 "w") 0)[0]? =
      some (0, List.replicate 512 "w") := by
    rw [chunkSpans_getElem?, List.length_replicate,
      if_pos (by norm_num), List.drop_replicate, List.take_replicate]
    norm_num
  have h1 : (chunkSpans (List.replicate 1024 "w") 0)[1]? =
      some (462, List.replicate 512 "w") := by
    rw [chunkSpans_getElem?, List.length_replicate,
      if_pos (by norm_num), List.drop_replicate, List.take_replicate]
    norm_num
  exact (chunk_overlap_spec.2.1 (List.replicate 1024 "w") 0
    (0, List.replicate 512 "w") (462, List.replicate 512 "w") h0 h1).2.1
    (by rw [List.length_replicate])

/-! ## Claim C3: the embedding pipeline -/

theorem batchSize_eq : batchSize = 5 := rfl

/-- The vector the pipeline is expected to pair with the chunk at global
index `j`: the `j mod 5`-th entry of the response for batch `j / 5`, or the
fallback vector when that batch's call failed. -/
def expectedEmbedding (oracle : Nat → Option (List Vec)) (j : Nat) : Vec :=
  match oracle (j / 5) with
  | none => fallbackVec
  | some vs => vs.getD (j % 5) fallbackVec

theorem generateEmbeddingsF_length (chunks : List Chunk)
    (oracle : Nat → Option (List Vec))
    (Hwf : ∀ b vs, oracle b = some vs →
      vs.length = ((chunks.drop (5 * b)).take 5).length) :
    ∀ (fuel b : Nat), chunks.length ≤ 5 * b + 5 * fuel →
      (generateEmbeddingsF oracle fuel chunks (5 * b)).length =
        chunks.length - 5 * b := by
  intro fuel
  induction fuel with
  | zero =>
      intro b h
      rw [generateEmbeddingsF]
      simp only [List.length_nil]
      omega
  | succ fuel ih =>
      intro b h
      rw [generateEmbeddingsF]
      by_cases hi : 5 * b < chunks.length
      · rw [if_pos hi, List.length_append]
        have hb : 5 * b / batchSize = b := by rw [batchSize_eq]; omega
        have hstep : 5 * b + batchSize = 5 * (b + 1) := by rw [batchSize_eq]; ring
        rw [hb, hstep, ih (b + 1) (by omega)]
        cases horc : oracle b with
        | none =>
            simp only [List.length_map, List.length_take, List.length_drop,
              batchSize_eq]
            omega
        | some vs =>
            simp only []
            rw [Hwf b vs horc]
            simp only [List.length_take, List.length_drop, batchSize_eq]
            omega
      · rw [if_neg hi]
        simp only [List.length_nil]
        omega

theorem generateEmbeddingsF_getElem? (chunks : List Chunk)
    (oracle : Nat → Option (List Vec))
    (Hwf : ∀ b vs, oracle b = some vs →
      vs.length = ((chunks.drop (5 * b)).take 5).length) :
    ∀ (fuel b t : Nat), chunks.length ≤ 5 * b + 5 * fuel →
      (generateEmbeddingsF oracle fuel chunks (5 * b))[t]? =
        if 5 * b + t < chunks.length then
          some (expectedEmbedding oracle (5 * b + t))
        else none := by
  intro fuel
  induction fuel with
  | zero =>
      intro b t h
      rw [generateEmbeddingsF, if_neg (by omega)]
      simp
  | succ fuel ih =>
      intro b t h
      rw [generateEmbeddingsF]
      by_cases hi : 5 * b < chunks.length
      · rw [if_pos hi]
        have hb : 5 * b / batchSize = b := by rw [batchSize_eq]; omega
        have hstep : 5 * b + batchSize = 5 * (b + 1) := by rw [batchSize_eq]; ring
        rw [hb, hstep]
        have hheadlen :
            (match oracle b with
             | some vs => vs
             | none => ((chunks.drop (5 * b)).take batchSize).map
                 fun _ => fallbackVec).length = min 5 (chunks.length - 5 * b) := by
          cases horc : oracle b with
          | none =>
              simp only [List.length_map, List.length_take, List.length_drop,
                batchSize_eq]
          | some vs =>
              simp only []
              rw [Hwf b vs horc]
              simp only [List.length_take, List.length_drop, batchSize_eq]
        rw [List.getElem?_append]
        by_cases ht : t < min 5 (chunks.length - 5 * b)
        · rw [if_pos (by rw [hheadlen]; omega)]
          have hdiv : (5 * b + t) / 5 = b := by omega
          have hmod : (5 * b + t) % 5 = t := by omega
          rw [expectedEmbedding, hdiv, hmod, if_pos (by omega)]
          cases horc : oracle b with
          | none =>
              simp only [List.getElem?_map]
              have hlt : t < ((chunks.drop (5 * b)).take batchSize).length := by
                simp only [List.length_take, List.length_drop, batchSize_eq]
                omega
              rw [List.getElem?_eq_getElem hlt]
              rfl
          | some vs =>
              simp only []
              have hvs : t < vs.length := by
                rw [Hwf b vs horc]
                simp only [List.length_take, List.length_drop, batchSize_eq]
                omega
              rw [List.getD_eq_getElem?_getD, List.getElem?_eq_getElem hvs]
              rfl
        · rw [if_neg (by rw [hheadlen]; omega)]
          rw [hheadlen]
          by_cases hfull : 5 ≤ chunks.length - 5 * b
          · have hmin : min 5 (chunks.length - 5 * b) = 5 := by omega
            rw [hmin]
            have := ih (b + 1) (t - 5) (by omega)
            rw [this]
            have harith : 5 * (b + 1) + (t - 5) = 5 * b + t := by omega
            rw [harith]
          · have hnone1 : ¬ 5 * (b + 1) + (t - min 5 (chunks.length - 5 * b))
                < chunks.length := by omega
            have := ih (b + 1) (t - min 5 (chunks.length - 5 * b)) (by omega)
            rw [this, if_neg hnone1, if_neg (by omega)]
      · rw [if_neg hi, if_neg (by omega)]
        simp

/-- C3: the embedding pipeline returns exactly one vector per input chunk in
input order; a failed batch — and only that batch — gets the 384-entry 0.1
fallback vector for each of its chunks, other batches being unaffected.  The
hypothesis is the remote contract: a successful embedding call returns one
vector per text of its batch. -/
theorem generateEmbeddings_spec (chunks : List Chunk)
    (oracle : Nat → Option (List Vec))
    (Hwf : ∀ b vs, oracle b = some vs →
      vs.length = ((chunks.drop (5 * b)).take 5).length) :
    (generateEmbeddings chunks oracle).length = chunks.length ∧
    ∀ j, (generateEmbeddings chunks oracle)[j]? =
      if j < chunks.length then some (expectedEmbedding oracle j) else none := by
  constructor
  · have := generateEmbeddingsF_length chunks oracle Hwf chunks.length 0 (by omega)
    rw [generateEmbeddings]
    simpa using this
  · intro j
    have := generateEmbeddingsF_getElem? chunks oracle Hwf chunks.length 0 j (by omega)
    rw [generateEmbeddings]
    simpa using this

/-- A throwaway chunk used in concrete pipeline runs. -/
def dummyChunk : Chunk := { content := "c", metadata := { sectionName := "x" } }

/-- Seven chunks: two batches, of 5 and 2 chunks. -/
def chunks7 : List Chunk := List.replicate 7 dummyChunk

/-- An embedding endpoint that answers batch 0 with five vectors and fails
on every later batch. -/
def oracleEx : Nat → Option (List Vec) :=
  fun b => if b = 0 then
    some [[1], [2], [3], [4], [5]]
  else none

/-- C3 (witness): with batch 0 succeeding and batch 1 failing, the pipeline
pairs chunk 1 with the API's second vector and chunk 5 with the fallback
vector, and returns one vector per chunk. -/
theorem generateEmbeddings_spec_witness :
    (generateEmbeddings chunks7 oracleEx).length = 7 ∧
    (generateEmbeddings chunks7 oracleEx)[1]? = some [(2 : ℚ)] ∧
    (generateEmbeddings chunks7 oracleEx)[5]? = some fallbackVec := by
  have hwf : ∀ b vs, oracleEx b = some vs →
      vs.length = ((chunks7.drop (5 * b)).take 5).length := by
    intro b vs hb
    cases b with
    | zero =>
        rw [oracleEx, if_pos rfl] at hb
        cases hb
        rfl
    | succ n =>
        rw [oracleEx, if_neg (by omega)] at hb
        cases hb
  have H := generateEmbeddings_spec chunks7 oracleEx hwf
  refine ⟨by rw [H.1]; rfl, ?_, ?_⟩
  · rw [H.2 1, if_pos (by rw [chunks7, List.length_replicate]; omega)]
    rfl
  · rw [H.2 5, if_pos (by rw [chunks7, List.length_replicate]; omega)]
    rfl

/-! ## Claims C5, C6: the model-fallback sequence -/

/-- C5: candidates are tried in order; the first one whose attempt produces a
well-formed response determines the returned answer, and no later candidate
is invoked (the invocation count equals the position of the first success,
and the result does not depend on the later candidates' outcomes) — in
particular a timeout of candidate 1 followed by a success of candidate 2
returns candidate 2's response with only two candidates invoked. -/
theorem generateResponse_fallback_order (o1 o2 o3 : AttemptOutcome) :
    (∀ r, attemptResult o1 = Except.ok r →
      generateResponse3 o1 o2 o3 = (Except.ok r, 1)) ∧
    (∀ e r, attemptResult o1 = Except.error e → attemptResult o2 = Except.ok r →
      generateResponse3 o1 o2 o3 = (Except.ok r, 2)) ∧
    (∀ e1 e2 r, attemptResult o1 = Except.error e1 →
      attemptResult o2 = Except.error e2 → attemptResult o3 = Except.ok r →
      generateResponse3 o1 o2 o3 = (Except.ok r, 3)) := by
  refine ⟨fun r h1 => ?_, fun e r h1 h2 => ?_, fun e1 e2 r h1 h2 h3 => ?_⟩
  · simp only [generateResponse3, h1]
  · simp only [generateResponse3, h1, h2]
  · simp only [generateResponse3, h1, h2, h3]

/-- C5 (witness): candidate 1 times out, candidate 2 answers; candidate 3
(here a malformed response) is never reached and the result is candidate 2's
answer after two invocations. -/
theorem generateResponse_fallback_order_witness :
    generateResponse3
      (AttemptOutcome.timeout "Chat API request timeout for Primary Model")
      (AttemptOutcome.response (some "answer from fallback 1"))
      (AttemptOutcome.response none) = (Except.ok "answer from fallback 1", 2) :=
  (generateResponse_fallback_order _ _ _).2.1
    "Chat API request timeout for Primary Model" "answer from fallback 1" rfl rfl

/-- C6: when all three candidates fail, `generateResponse` propagates the
last candidate's error while `generateFollowUpQuestions` returns the empty
list. -/
theorem all_candidates_fail_terminal (o1 o2 o3 : AttemptOutcome)
    (e1 e2 e3 : String) (chunks : List SearchResult)
    (h1 : attemptResult o1 = Except.error e1)
    (h2 : attemptResult o2 = Except.error e2)
    (h3 : attemptResult o3 = Except.error e3) :
    generateResponse3 o1 o2 o3 = (Except.error e3, 3) ∧
    generateFollowUpQuestions chunks o1 o2 o3 = [] := by
  constructor
  · simp only [generateResponse3, h1, h2, h3]
  · rw [generateFollowUpQuestions]
    simp only [h1, h2, h3]
    split <;> rfl

/-- A payload and search result used in concrete runs. -/
def dummyPayload : PointPayload :=
  { content := "chunk text", fileId := some "f", documentType := some "general",
    sectionName := some "page_content", sectionTitle := none,
    chunkIndex := some 0, wordCount := some 2, pageNumber := some 1,
    pageIndex := some 0, chunkType := some "page", chunkPart := none }

def dummyResult : SearchResult :=
  { id := "p1", score := 1, content := "chunk text", metadata := dummyPayload }

/-- C6 (witness): a timeout, a transport error and a malformed response in
sequence — chat propagates `Invalid response` (the last failure), follow-up
generation returns `[]`. -/
theorem all_candidates_fail_terminal_witness :
    generateResponse3 (AttemptOutcome.timeout "Chat API request timeout for Primary Model")
      (AttemptOutcome.transportError "fetch failed")
      (AttemptOutcome.response none) = (Except.error "Invalid response", 3) ∧
    generateFollowUpQuestions [dummyResult]
      (AttemptOutcome.timeout "Chat API request timeout for Primary Model")
      (AttemptOutcome.transportError "fetch failed")
      (AttemptOutcome.response none) = [] :=
  all_candidates_fail_terminal _ _ _
    "Chat API request timeout for Primary Model" "fetch failed" "Invalid response"
    [dummyResult] rfl rfl rfl

/-! ## Claim C7: index-layer failure handling -/

/-- C7 (counterexample): an unreachable vector store does not propagate out
of `searchByFileId` / `searchByFileIdAndPage`: both catch the failure and
return an empty result indistinguishable from a successful no-match query. -/
theorem index_failure_swallowed_counterexample :
    searchByFileId "file-1" 10 (Except.error "vector store unreachable") = [] ∧
    searchByFileId "file-1" 10 (Except.error "vector store unreachable") =
      searchByFileId "file-1" 10 (Except.ok []) ∧
    searchByFileIdAndPage "file-1" 3 10 (Except.error "vector store unreachable") = [] :=
  ⟨rfl, rfl, rfl⟩

/-- C7 (amended): an index-layer failure is rethrown by `searchSimilar`
(whenever the zero-vector guard does not short-circuit) and by
`deleteByFileId`, but `searchByFileId` and `searchByFileIdAndPage` swallow it
and return an empty result. -/
theorem index_failure_propagation_spec (e : String) (qv : List ℚ)
    (f : Option QFilter) (fid : String) (lim pg : Nat)
    (hq : (qv.all (· = 0) && f.isNone) = false) :
    searchSimilar qv f (Except.error e) = Except.error e ∧
    deleteByFileId fid (Except.error e) = Except.error e ∧
    searchByFileId fid lim (Except.error e) = [] ∧
    searchByFileIdAndPage fid pg lim (Except.error e) = [] := by
  refine ⟨?_, rfl, rfl, rfl⟩
  rw [searchSimilar, if_neg (by rw [hq]; exact Bool.false_ne_true)]

/-- C7 (witness): the propagation behaviour at a concrete failing call. -/
theorem index_failure_propagation_spec_witness :
    searchSimilar [(1 : ℚ)] none (Except.error "connection refused") =
      Except.error "connection refused" ∧
    deleteByFileId "f" (Except.error "connection refused") =
      Except.error "connection refused" ∧
    searchByFileId "f" 10 (Except.error "connection refused") = [] ∧
    searchByFileIdAndPage "f" 3 10 (Except.error "connection refused") = [] :=
  index_failure_propagation_spec "connection refused" [1] none "f" 10 3 (by decide)

/-! ## Claims C9, C10: query classification -/

/-- C9: the three reference classifications of the spec hold on the embedded
classifier. -/
theorem detectPageSpecificQuery_reference_cases :
    detectPageSpecificQuery ("What" ++ apos ++ "s on page 5?") =
      { isPageSpecific := true, pageNumber := some 5 } ∧
    detectPageSpecificQuery "Tell me about the 3rd page" =
      { isPageSpecific := true, pageNumber := some 3 } ∧
    detectPageSpecificQuery "What is this document about?" =
      { isPageSpecific := false, pageNumber := none } := by
  refine ⟨by decide, by decide, by decide⟩

theorem tryPatterns_pos (ps : List (List Char → Option Nat)) :
    ∀ (s : List Char) (n : Nat), tryPatterns ps s = some n → 0 < n := by
  induction ps with
  | nil =>
      intro s n h
      rw [tryPatterns] at h
      cases h
  | cons p ps ih =>
      intro s n h
      rw [tryPatterns] at h
      cases hp : p s with
      | none =>
          rw [hp] at h
          exact ih s n h
      | some m =>
          simp only [hp] at h
          by_cases hm : 0 < m
          · rw [if_pos hm] at h
            cases h
            exact hm
          · rw [if_neg hm] at h
            exact ih s n h

/-- C10: the classifier never reports a non-positive page number: a returned
`pageNumber` is always positive; a matching pattern whose captured number is
0 is skipped and the remaining patterns are still tried; and on the query
`page 0` (where pattern 1 matches with capture 0 and no later pattern yields
a positive number) the classifier reports not-page-specific. -/
theorem detectPageSpecificQuery_positive :
    (∀ (q : String) (n : Nat),
      (detectPageSpecificQuery q).pageNumber = some n → 0 < n) ∧
    (∀ q : String, (detectPageSpecificQuery q).isPageSpecific = true →
      ∃ n, (detectPageSpecificQuery q).pageNumber = some n ∧ 0 < n) ∧
    (∀ (p : List Char → Option Nat) (ps : List (List Char → Option Nat))
      (s : List Char), p s = some 0 →
      tryPatterns (p :: ps) s = tryPatterns ps s) ∧
    detectPageSpecificQuery "page 0" =
      { isPageSpecific := false, pageNumber := none } := by
  refine ⟨?_, ?_, ?_, by decide⟩
  · intro q n h
    rw [detectPageSpecificQuery] at h
    cases ht : tryPatterns pagePatterns (jsToLower q).data with
    | none =>
        rw [ht] at h
        cases h
    | some m =>
        rw [ht] at h
        have hsome : some m = some n := h
        obtain rfl : m = n := Option.some.inj hsome
        exact tryPatterns_pos pagePatterns _ m ht
  · intro q h
    rw [detectPageSpecificQuery] at h
    cases ht : tryPatterns pagePatterns (jsToLower q).data with
    | none =>
        rw [ht] at h
        cases h
    | some m =>
        refine ⟨m, ?_, tryPatterns_pos pagePatterns _ m ht⟩
        rw [detectPageSpecificQuery, ht]
  · intro p ps s hp
    simp only [tryPatterns, hp]
    rw [if_neg (by omega)]

/-- C10 (witness): a positive classified page number, via the theorem. -/
theorem detectPageSpecificQuery_positive_witness :
    (detectPageSpecificQuery "page 5").pageNumber = some 5 ∧ 0 < 5 :=
  ⟨by decide, detectPageSpecificQuery_positive.1 "page 5" 5 (by decide)⟩

/-! ## Claim C4: the empty-page short circuit -/

/-- C4: a page-specific query with a fileId whose page-restricted retrieval
is empty produces the terminal no-content response (0 chunks used, confidence
0) and the model-fallback sequence is never invoked: the result is the same
for any two model behaviours. -/
theorem chatWithPDF_page_empty_short_circuit
    (query : String) (fid : String) (n : Nat)
    (pageSearch : String → Nat → List SearchResult)
    (fileSearch : String → List SearchResult)
    (simSearch : Except String (List SearchResult))
    (gen gen2 : String → Except String String)
    (hdet : detectPageSpecificQuery query =
      { isPageSpecific := true, pageNumber := some n })
    (hempty : pageSearch fid n = []) :
    chatWithPDF query (some fid) pageSearch fileSearch simSearch gen =
      Except.ok (noContentResult n) ∧
    (noContentResult n).context.chunksUsed = 0 ∧
    (noContentResult n).context.confidence = 0 ∧
    chatWithPDF query (some fid) pageSearch fileSearch simSearch gen =
      chatWithPDF query (some fid) pageSearch fileSearch simSearch gen2 := by
  have hmain : ∀ g : String → Except String String,
      chatWithPDF query (some fid) pageSearch fileSearch simSearch g =
        Except.ok (noContentResult n) := by
    intro g
    rw [chatWithPDF]
    simp only [hdet, Option.getD_some]
    rw [hempty]
    simp
  exact ⟨hmain gen, rfl, rfl, (hmain gen).trans (hmain gen2).symm⟩

/-- C4 (witness): the short circuit on the concrete query `page 3` with an
empty page-3 retrieval; the model oracle is irrelevant. -/
theorem chatWithPDF_page_empty_short_circuit_witness :
    chatWithPDF "page 3" (some "f1") (fun _ _ => []) (fun _ => [dummyResult])
      (Except.ok [dummyResult]) (fun _ => Except.ok "model answer") =
      Except.ok (noContentResult 3) :=
  (chatWithPDF_page_empty_short_circuit "page 3" "f1" 3 _ _ _ _
    (fun _ => Except.error "all models failed") (by decide) rfl).1

/-! ## Claim C8: chunk ordering in `createChunks` -/

/-- The position of a chunk's source kind in the emission order of
`createChunks`. -/
def chunkRank (c : Chunk) : Nat :=
  if c.metadata.sectionName = "document_info" then 0
  else if c.metadata.sectionName = "page_content" then 1
  else if c.metadata.sectionName = "section_content" then 2
  else if c.metadata.sectionName = "suggestions" then 3
  else 4

/-- The within-kind position: the page index for page chunks, the section
index for section chunks, 0 otherwise. -/
def chunkSubIdx (c : Chunk) : Nat :=
  (c.metadata.pageIndex).getD ((c.metadata.sectionIndex).getD 0)

/-- The emission order: earlier kind, or same kind and no later unit. -/
def chunkLE (a b : Chunk) : Prop :=
  chunkRank a < chunkRank b ∨
    (chunkRank a = chunkRank b ∧ chunkSubIdx a ≤ chunkSubIdx b)

theorem chunkRank_of_page {c : Chunk}
    (h : c.metadata.sectionName = "page_content") : chunkRank c = 1 := by
  rw [chunkRank, h, if_neg (by decide), if_pos rfl]

theorem chunkRank_of_section {c : Chunk}
    (h : c.metadata.sectionName = "section_content") : chunkRank c = 2 := by
  rw [chunkRank, h, if_neg (by decide), if_neg (by decide), if_pos rfl]

theorem chunkRank_of_sugg {c : Chunk}
    (h : c.metadata.sectionName = "suggestions") : chunkRank c = 3 := by
  rw [chunkRank, h, if_neg (by decide), if_neg (by decide), if_neg (by decide),
    if_pos rfl]

theorem chunkRank_of_expl {c : Chunk}
    (h : c.metadata.sectionName = "explanations") : chunkRank c = 4 := by
  rw [chunkRank, h, if_neg (by decide), if_neg (by decide), if_neg (by decide),
    if_neg (by decide)]

theorem enumFrom_fst_le {α : Type} (l : List α) :
    ∀ (i : Nat), ∀ ja ∈ enumFrom i l, i ≤ ja.1 := by
  induction l with
  | nil => intro i ja h; simp [enumFrom] at h
  | cons x xs ih =>
      intro i ja h
      rw [enumFrom, List.mem_cons] at h
      rcases h with h | h
      · subst h; exact Nat.le_refl i
      · exact Nat.le_of_succ_le (ih (i + 1) ja h)

theorem pairwise_enumFrom {α : Type} (l : List α) :
    ∀ i : Nat, List.Pairwise (fun x y : Nat × α => x.1 < y.1) (enumFrom i l) := by
  induction l with
  | nil => intro i; simp [enumFrom]
  | cons x xs ih =>
      intro i
      rw [enumFrom, List.pairwise_cons]
      exact ⟨fun y hy => Nat.lt_of_succ_le (enumFrom_fst_le xs (i + 1) y hy), ih (i + 1)⟩

theorem mem_enumFrom_getElem? {α : Type} (l : List α) :
    ∀ (i : Nat), ∀ ja ∈ enumFrom i l, i ≤ ja.1 ∧ l[ja.1 - i]? = some ja.2 := by
  induction l with
  | nil => intro i ja h; simp [enumFrom] at h
  | cons x xs ih =>
      intro i ja h
      rw [enumFrom, List.mem_cons] at h
      rcases h with h | h
      · subst h
        simp
      · obtain ⟨hle, hget⟩ := ih (i + 1) ja h
        refine ⟨by omega, ?_⟩
        have harith : ja.1 - i = (ja.1 - (i + 1)) + 1 := by omega
        rw [harith, List.getElem?_cons_succ, hget]

/-- Pairwise emission order for a block built by `flatMap` over units with
strictly increasing indices, all chunks of a unit sharing one rank and the
unit's index. -/
theorem pairwise_chunkLE_flatMap {β : Type} (l : List β) (f : β → List Chunk)
    (R : Nat) (g : β → Nat)
    (hsorted : List.Pairwise (fun x y => g x < g y) l)
    (hconst : ∀ x ∈ l, ∀ c ∈ f x, chunkRank c = R ∧ chunkSubIdx c = g x) :
    List.Pairwise chunkLE (l.flatMap f) := by
  induction l with
  | nil => simp
  | cons x xs ih =>
      rw [List.flatMap_cons, List.pairwise_append]
      rw [List.pairwise_cons] at hsorted
      refine ⟨?_, ih hsorted.2 (fun y hy => hconst y (List.mem_cons_of_mem x hy)), ?_⟩
      · apply List.pairwise_of_forall_mem_list
        intro a ha b hb
        obtain ⟨hra, hsa⟩ := hconst x (List.mem_cons_self x xs) a ha
        obtain ⟨hrb, hsb⟩ := hconst x (List.mem_cons_self x xs) b hb
        exact Or.inr ⟨hra.trans hrb.symm, by rw [hsa, hsb]⟩
      · intro a ha b hb
        rw [List.mem_flatMap] at hb
        obtain ⟨y, hy, hby⟩ := hb
        obtain ⟨hra, hsa⟩ := hconst x (List.mem_cons_self x xs) a ha
        obtain ⟨hrb, hsb⟩ := hconst y (List.mem_cons_of_mem x hy) b hby
        refine Or.inr ⟨hra.trans hrb.symm, ?_⟩
        rw [hsa, hsb]
        exact Nat.le_of_lt (hsorted.1 y hy)

/-- Facts about a member of the page block: rank 1, and its page index names
a page of the document whose trimmed text is non-empty. -/
theorem mem_pageChunksBlock (d : StructuredData) (c : Chunk)
    (h : c ∈ pageChunksBlock d) :
    chunkRank c = 1 ∧
    ∃ j p, c.metadata.pageIndex = some j ∧ chunkSubIdx c = j ∧
      d.pages[j]? = some p ∧ jsTrim p.text ≠ "" := by
  rw [pageChunksBlock, List.mem_flatMap] at h
  obtain ⟨ip, hip, hc⟩ := h
  by_cases ht : jsTrim ip.2.text ≠ ""
  · rw [if_pos ht] at hc
    obtain ⟨hname, hpidx, _, _⟩ := mem_chunkPage_meta ip.2 ip.1 c hc
    obtain ⟨_, hget⟩ := mem_enumFrom_getElem? d.pages 0 ip hip
    refine ⟨chunkRank_of_page hname, ip.1, ip.2, hpidx, ?_, by simpa using hget, ht⟩
    rw [chunkSubIdx, hpidx]
    rfl
  · rw [if_neg ht] at hc
    simp at hc

theorem mem_sectionChunksBlock (d : StructuredData) (c : Chunk)
    (h : c ∈ sectionChunksBlock d) :
    chunkRank c = 2 ∧ c.metadata.pageIndex = none := by
  rw [sectionChunksBlock, List.mem_flatMap] at h
  obtain ⟨is, _, hc⟩ := h
  obtain ⟨hname, _, hpidx, _⟩ := mem_chunkSection_meta is.2 is.1 c hc
  exact ⟨chunkRank_of_section hname, hpidx⟩

theorem mem_suggestionsBlock (d : StructuredData) (c : Chunk)
    (h : c ∈ suggestionsBlock d) :
    chunkRank c = 3 ∧ c.metadata.pageIndex = none ∧ chunkSubIdx c = 0 := by
  rw [suggestionsBlock] at h
  by_cases hs : 0 < d.suggestions.length
  · rw [if_pos hs, List.mem_singleton] at h
    subst h
    exact ⟨chunkRank_of_sugg rfl, rfl, rfl⟩
  · rw [if_neg hs] at h
    simp at h

theorem mem_explanationsBlock (d : StructuredData) (c : Chunk)
    (h : c ∈ explanationsBlock d) :
    chunkRank c = 4 ∧ c.metadata.pageIndex = none ∧ chunkSubIdx c = 0 := by
  rw [explanationsBlock, List.mem_map] at h
  obtain ⟨kv, _, hc⟩ := h
  subst hc
  exact ⟨chunkRank_of_expl rfl, rfl, rfl⟩

theorem pairwise_pageChunksBlock (d : StructuredData) :
    List.Pairwise chunkLE (pageChunksBlock d) := by
  rw [pageChunksBlock]
  refine pairwise_chunkLE_flatMap (enumFrom 0 d.pages) _ 1 Prod.fst
    (pairwise_enumFrom d.pages 0) ?_
  intro ip _ c hc
  by_cases ht : jsTrim ip.2.text ≠ ""
  · rw [if_pos ht] at hc
    obtain ⟨hname, hpidx, _, _⟩ := mem_chunkPage_meta ip.2 ip.1 c hc
    refine ⟨chunkRank_of_page hname, ?_⟩
    rw [chunkSubIdx, hpidx]
    rfl
  · rw [if_neg ht] at hc
    simp at hc

theorem pairwise_sectionChunksBlock (d : StructuredData) :
    List.Pairwise chunkLE (sectionChunksBlock d) := by
  rw [sectionChunksBlock]
  refine pairwise_chunkLE_flatMap (enumFrom 0 d.sections) _ 2 Prod.fst
    (pairwise_enumFrom d.sections 0) ?_
  intro is _ c hc
  obtain ⟨hname, hsidx, hpidx, _⟩ := mem_chunkSection_meta is.2 is.1 c hc
  refine ⟨chunkRank_of_section hname, ?_⟩
  rw [chunkSubIdx, hpidx, hsidx]
  rfl

/-- C8: the chunk sequence of `createChunks` is ordered: the document-info
chunk is first; chunk kinds appear in the order document-info, page content,
section content, suggestions, explanations, with page chunks in page order
and section chunks in section order; and a page whose trimmed text is empty
contributes no chunk. -/
theorem createChunks_ordering (d : StructuredData) :
    (createChunks d).head? = some (documentInfoChunk d) ∧
    List.Pairwise chunkLE (createChunks d) ∧
    (∀ (i : Nat) (p : PageData), d.pages[i]? = some p → jsTrim p.text = "" →
      ∀ c ∈ createChunks d, c.metadata.pageIndex ≠ some i) := by
  have hrank1 : ∀ c ∈ pageChunksBlock d ++ sectionChunksBlock d
      ++ suggestionsBlock d ++ explanationsBlock d,
      1 ≤ chunkRank c ∧ chunkRank c ≤ 4 := by
    intro c hc
    simp only [List.mem_append] at hc
    rcases hc with ((h | h) | h) | h
    · rw [(mem_pageChunksBlock d c h).1]; omega
    · rw [(mem_sectionChunksBlock d c h).1]; omega
    · rw [(mem_suggestionsBlock d c h).1]; omega
    · rw [(mem_explanationsBlock d c h).1]; omega
  refine ⟨by rw [createChunks]; rfl, ?_, ?_⟩
  · rw [createChunks, List.pairwise_cons]
    constructor
    · intro c hc
      refine Or.inl ?_
      have h0 : chunkRank (documentInfoChunk d) = 0 := by
        simp [chunkRank, documentInfoChunk]
      rw [h0]
      exact Nat.lt_of_lt_of_le Nat.zero_lt_one (hrank1 c hc).1
    · refine (List.pairwise_append).2 ⟨(List.pairwise_append).2
        ⟨(List.pairwise_append).2 ⟨pairwise_pageChunksBlock d,
          pairwise_sectionChunksBlock d, ?_⟩, ?_, ?_⟩, ?_, ?_⟩
      · intro a ha b hb
        exact Or.inl (by
          rw [(mem_pageChunksBlock d a ha).1, (mem_sectionChunksBlock d b hb).1]
          omega)
      · rw [suggestionsBlock]
        by_cases hs : 0 < d.suggestions.length
        · rw [if_pos hs]
          exact List.pairwise_singleton _ _
        · rw [if_neg hs]
          exact List.Pairwise.nil
      · intro a ha b hb
        refine Or.inl ?_
        rw [(mem_suggestionsBlock d b hb).1]
        rw [List.mem_append] at ha
        rcases ha with h | h
        · rw [(mem_pageChunksBlock d a h).1]; omega
        · rw [(mem_sectionChunksBlock d a h).1]; omega
      · apply List.pairwise_of_forall_mem_list
        intro a ha b hb
        obtain ⟨hra, _, hsa⟩ := mem_explanationsBlock d a ha
        obtain ⟨hrb, _, hsb⟩ := mem_explanationsBlock d b hb
        exact Or.inr ⟨hra.trans hrb.symm, by rw [hsa, hsb]⟩
      · intro a ha b hb
        refine Or.inl ?_
        rw [(mem_explanationsBlock d b hb).1]
        simp only [List.mem_append] at ha
        rcases ha with (h | h) | h
        · rw [(mem_pageChunksBlock d a h).1]; omega
        · rw [(mem_sectionChunksBlock d a h).1]; omega
        · rw [(mem_suggestionsBlock d a h).1]; omega
  · intro i p hip htrim c hc
    rw [createChunks, List.mem_cons] at hc
    rcases hc with rfl | hc
    · simp [documentInfoChunk]
    simp only [List.mem_append] at hc
    rcases hc with ((h | h) | h) | h
    · obtain ⟨_, j, q, hpidx, _, hget, htq⟩ := mem_pageChunksBlock d c h
      rw [hpidx]
      intro hji
      obtain rfl : j = i := Option.some.inj hji
      rw [hip] at hget
      obtain rfl : p = q := Option.some.inj hget
      exact htq htrim
    · rw [(mem_sectionChunksBlock d c h).2]
      simp
    · rw [(mem_suggestionsBlock d c h).2.1]
      simp
    · rw [(mem_explanationsBlock d c h).2.1]
      simp

/-- A small concrete document: a non-empty page, a whitespace-only page, one
section, suggestions and one explanation. -/
def dEx : StructuredData :=
  { documentType := "general", summary := "two pages",
    pages := [{ pageNumber := 1, text := "hello world" },
              { pageNumber := 2, text := "   " }],
    sections := [{ title := "Skills", content := ["a", "b"] }],
    suggestions := ["add more detail"],
    explanations := [("methodology", "describes methods")] }

/-- C8 (witness): on the concrete document the document-info chunk is first
and the whitespace-only page 2 (index 1) contributes no chunk. -/
theorem createChunks_ordering_witness :
    (createChunks dEx).head? = some (documentInfoChunk dEx) ∧
    (documentInfoChunk dEx).metadata.pageIndex ≠ some 1 := by
  have H := createChunks_ordering dEx
  refine ⟨H.1, ?_⟩
  exact H.2.2 1 { pageNumber := 2, text := "   " } (by rfl) (by decide)
    (documentInfoChunk dEx) (by rw [createChunks]; exact List.mem_cons_self _ _)
